import Mathlib

/-!
Shallow embedding of `src/engine/fitter.py` (class `Fitter`) from the
wheatdetection repository.

Modelling conventions:
* Machine floats (learning rates, validation scores, thresholds) are
  modelled as rationals.
* Torch tensors, optimizer/scheduler internal state and model
  parameters are opaque natural-number state dictionaries; the
  external collaborators (the per-epoch training computation, the
  forward pass, `inference`, `evaluate`) are fields of an `Externals`
  record, so theorems quantify over their behaviour.
* Every path the fitter writes has the form `{base_dir}/NAME` with
  `base_dir` fixed for the run, so a path is modelled by its file name
  (`FPath`).  `torch.save` is modelled by appending a `FileWrite`
  event to a write log carried in the `Fitter` state; `torch.load` by
  consuming a `FullCheckpoint` value.
* Console/tqdm printing, the `log.txt` text log, timing, timestamps,
  `torch.cuda.empty_cache()` and `google.colab` `output.clear()` are
  external side effects with no influence on the fitter state; they
  are not modelled.
-/

namespace Wheat

/-- Compute device of a tensor, and the `device` the `Fitter` is
constructed with. -/
inductive Device
  | cpu
  | cuda
deriving DecidableEq, BEq

/-- Torch module mode, switched by `model.train()` / `model.eval()`. -/
inductive Mode
  | train
  | eval
deriving DecidableEq, BEq

/-- An input image tensor: an identifier plus the device it currently
lives on. -/
structure Image where
  id : Nat
  device : Device
deriving DecidableEq, BEq

/-- Embeds `image.cuda()` (fitter.py line 106): move the tensor to the
CUDA device, whatever device it was on. -/
def Image.cuda (img : Image) : Image :=
  { img with device := Device.cuda }

/-- Embeds `image.to(device)` as used in `train_one_epoch`. -/
def Image.toDev (img : Image) (d : Device) : Image :=
  { img with device := d }

/-- One prediction row accumulated by the external `inference`
collaborator (payload opaque). -/
structure Prediction where
  image_id : Nat
  data : Nat
deriving DecidableEq, BEq

/-- The model collaborator: a mode flag plus an opaque parameter
state dictionary. -/
structure Model where
  mode : Mode
  params : Nat
deriving DecidableEq, BEq

/-- Embeds `model.eval()`. -/
def Model.eval (m : Model) : Model := { m with mode := Mode.eval }

/-- Embeds `model.train()`. -/
def Model.train (m : Model) : Model := { m with mode := Mode.train }

/-- Embeds `model.state_dict()`. -/
def Model.state_dict (m : Model) : Nat := m.params

/-- Embeds `model.load_state_dict(sd)`. -/
def Model.load_state_dict (m : Model) (sd : Nat) : Model := { m with params := sd }

/-- The optimizer collaborator: the per-parameter-group learning
rates (`pg[lr]` for `pg` in `optimizer.param_groups`) plus an opaque
internal state dictionary. -/
structure Optimizer where
  param_group_lrs : List ℚ
  state : Nat
deriving DecidableEq, BEq

/-- Embeds the loop `for pg in self.optimizer.param_groups:
pg[lr] = v` (fitter.py lines 58-59). -/
def Optimizer.set_lrs (o : Optimizer) (v : ℚ) : Optimizer :=
  { o with param_group_lrs := o.param_group_lrs.map (fun _ => v) }

/-- The `cfg.SOLVER` fields read by the `Fitter`. -/
structure SolverConfig where
  MAX_EPOCHS : Nat
  WARMUP_EPOCHS : Nat
  BASE_LR : ℚ
  EARLY_STOP_PATIENCE : Nat
  CLEAR_OUTPUT : Nat
deriving DecidableEq, BEq

/-- The read-only run configuration.  `OUTPUT_DIR` is subsumed by
modelling paths by their file name, see `FPath`. -/
structure Config where
  VERBOSE : Bool
  SOLVER : SolverConfig
deriving DecidableEq, BEq

/-- The record serialized by `Fitter.save` (fitter.py lines 147-154). -/
structure FullCheckpoint where
  model_state_dict : Nat
  optimizer_state_dict : Nat
  scheduler_state_dict : Nat
  best_score_threshold : ℚ
  best_final_score : ℚ
  epoch : Nat
deriving DecidableEq, BEq

/-- The lighter record serialized by `Fitter.save_model`
(fitter.py lines 158-162): no optimizer/scheduler state, no epoch. -/
structure ModelCheckpoint where
  model_state_dict : Nat
  best_score_threshold : ℚ
  best_final_score : ℚ
deriving DecidableEq, BEq

/-- A file path under the output directory, identified by its file
name since `base_dir` is fixed for the run.  `lastCheckpoint` stands
for `{base_dir}/last-checkpoint.bin`, `bestCheckpoint` for
`{base_dir}/best-checkpoint.bin`, `bestModel` for
`{base_dir}/best-model.bin`, `allPredictionsCsv` for
`{base_dir}/all_predictions.csv`; `custom` covers paths supplied by an
external caller of `save`/`save_model`. -/
inductive FPath
  | lastCheckpoint
  | bestCheckpoint
  | bestModel
  | allPredictionsCsv
  | custom (s : String)
deriving DecidableEq, BEq

/-- The durable artifact one write produces. -/
inductive Artifact
  | fullCkpt (c : FullCheckpoint)
  | modelCkpt (c : ModelCheckpoint)
  | predsCsv (rows : List Prediction)
deriving DecidableEq, BEq

/-- One durable write event (`torch.save` or `DataFrame.to_csv`). -/
structure FileWrite where
  path : FPath
  artifact : Artifact
deriving DecidableEq, BEq

/-- One batch yielded by the validation data loader:
`(images, targets, image_ids)`; targets are opaque here. -/
structure Batch where
  images : List Image
  targets : Nat
  image_ids : List Nat
deriving DecidableEq, BEq

/-- The external collaborators, quantified over in the theorems:
* `trainEpoch` — the combined effect of one epoch of forward/backward
  passes, optimizer steps and (when the flag is true) scheduler steps
  on the three opaque state dictionaries (model, optimizer, scheduler);
* `forward` — `self.model(images)` in inference mode: model parameters
  and inputs to opaque outputs;
* `inferenceResults` — the rows the external `inference` function
  appends to the accumulator for one batch;
* `evaluate` — the external `evaluate` function, returning
  `(best_score_threshold, best_final_score)`. -/
structure Externals where
  trainEpoch : Nat → Nat → Nat → Bool → Nat × Nat × Nat
  forward : Nat → List Image → Nat
  inferenceResults : List Image → Nat → Nat → List Nat → List Prediction
  evaluate : List Prediction → ℚ × ℚ

/-- The `Fitter` object state (fitter.py lines 24-52), plus the log of
durable writes it has performed. -/
structure Fitter where
  config : Config
  epoch : Nat
  train_loader : Nat
  val_loader : List Batch
  best_final_score : ℚ
  best_score_threshold : ℚ
  model : Model
  device : Device
  optimizer : Optimizer
  scheduler_state : Nat
  all_predictions : List Prediction
  early_stop_epochs : Nat
  early_stop_patience : Nat
  do_scheduler : Bool
  writes : List FileWrite

/-- Constructor `Fitter.__init__`: `epoch = 0`,
`best_final_score = 0.0`, `best_score_threshold = 0.5`,
`all_predictions = []`, `early_stop_epochs = 0`, patience read from
`cfg.SOLVER.EARLY_STOP_PATIENCE`, `do_scheduler = True`, no writes
performed yet.  `make_optimizer` and `make_scheduler` are external, so
the constructed optimizer and scheduler state are arguments; the
banner line appended to `log.txt` is a text side effect, not
modelled. -/
def Fitter.init (model : Model) (device : Device) (cfg : Config)
    (train_loader : Nat) (val_loader : List Batch)
    (optimizer : Optimizer) (scheduler_state : Nat) : Fitter where
  config := cfg
  epoch := 0
  train_loader := train_loader
  val_loader := val_loader
  best_final_score := 0
  best_score_threshold := 1/2
  model := model
  device := device
  optimizer := optimizer
  scheduler_state := scheduler_state
  all_predictions := []
  early_stop_epochs := 0
  early_stop_patience := cfg.SOLVER.EARLY_STOP_PATIENCE
  do_scheduler := true
  writes := []

/-- Embeds `save(path)` (fitter.py lines 145-154): `model.eval()`
first, then `torch.save` of the full checkpoint record. -/
def Fitter.save (f : Fitter) (path : FPath) : Fitter :=
  let f := { f with model := f.model.eval }
  { f with writes := f.writes ++
      [⟨path, Artifact.fullCkpt
        { model_state_dict := f.model.state_dict
          optimizer_state_dict := f.optimizer.state
          scheduler_state_dict := f.scheduler_state
          best_score_threshold := f.best_score_threshold
          best_final_score := f.best_final_score
          epoch := f.epoch }⟩] }

/-- Embeds `save_model(path)` (fitter.py lines 156-162): `model.eval()`
first, then `torch.save` of parameters plus best score/threshold. -/
def Fitter.save_model (f : Fitter) (path : FPath) : Fitter :=
  let f := { f with model := f.model.eval }
  { f with writes := f.writes ++
      [⟨path, Artifact.modelCkpt
        { model_state_dict := f.model.state_dict
          best_score_threshold := f.best_score_threshold
          best_final_score := f.best_final_score }⟩] }

/-- Embeds `save_predictions(path)` (fitter.py lines 164-166): write
`all_predictions` as a tabular file. -/
def Fitter.save_predictions (f : Fitter) (path : FPath) : Fitter :=
  { f with writes := f.writes ++
      [⟨path, Artifact.predsCsv f.all_predictions⟩] }

/-- Embeds `load(path)` (fitter.py lines 168-175) applied to the
checkpoint record read from the path: rehydrate model, optimizer and
scheduler state, restore best threshold/score, and set
`epoch = checkpoint.epoch + 1`. -/
def Fitter.load (f : Fitter) (c : FullCheckpoint) : Fitter :=
  { f with
      model := f.model.load_state_dict c.model_state_dict
      optimizer := { f.optimizer with state := c.optimizer_state_dict }
      scheduler_state := c.scheduler_state_dict
      best_score_threshold := c.best_score_threshold
      best_final_score := c.best_final_score
      epoch := c.epoch + 1 }

/-- Embeds `early_stop(score)` (fitter.py lines 183-187): increment
the stall counter when `score < self.best_final_score`, reset it to
zero otherwise. -/
def Fitter.early_stop (f : Fitter) (score : ℚ) : Fitter :=
  if score < f.best_final_score then
    { f with early_stop_epochs := f.early_stop_epochs + 1 }
  else
    { f with early_stop_epochs := 0 }

/-- Embeds the warmup head of the `fit` loop body (fitter.py lines
56-62): during warmup set every parameter group learning rate to
`min(1, (epoch+1)/WARMUP_EPOCHS) * BASE_LR` and disable scheduler
stepping; otherwise enable scheduler stepping. -/
def Fitter.warmupStep (epoch : Nat) (f : Fitter) : Fitter :=
  if epoch < f.config.SOLVER.WARMUP_EPOCHS then
    let lr_scale : ℚ :=
      min 1 (((epoch : ℚ) + 1) / (f.config.SOLVER.WARMUP_EPOCHS : ℚ))
    { f with
        optimizer := f.optimizer.set_lrs (lr_scale * f.config.SOLVER.BASE_LR)
        do_scheduler := false }
  else
    { f with do_scheduler := true }

/-- Embeds `train_one_epoch` (fitter.py lines 115-143):
`model.train()`, then one pass over the training loader whose
forward/backward passes, optimizer steps and conditional scheduler
steps act on the opaque state dictionaries through the external
`trainEpoch` collaborator.  The loss meter and the per-step progress
strings are observational only and carry no claim, so they are not
modelled; the loop touches no best score, no early-stop counter, no
epoch counter and writes no file. -/
def Fitter.train_one_epoch (ext : Externals) (f : Fitter) : Fitter :=
  let m := f.model.train
  let s := ext.trainEpoch m.params f.optimizer.state f.scheduler_state f.do_scheduler
  { f with
      model := { m with params := s.1 }
      optimizer := { f.optimizer with state := s.2.1 }
      scheduler_state := s.2.2 }

/-- Embeds the validation loop body (fitter.py lines 105-110): per
batch, move the images to the CUDA device with `image.cuda()`, run the
inference-only forward pass, and append the rows produced by the
external `inference` function to the accumulator. -/
def Fitter.validationAcc (ext : Externals) (params : Nat)
    (acc : List Prediction) : List Batch → List Prediction
  | [] => acc
  | b :: bs =>
    let images := b.images.map Image.cuda
    let outputs := ext.forward params images
    Fitter.validationAcc ext params
      (acc ++ ext.inferenceResults images outputs b.targets b.image_ids) bs

/-- Embeds `validation()` (fitter.py lines 98-113): `model.eval()`,
reset `all_predictions`, iterate the validation loader accumulating
predictions, then return `evaluate(all_predictions)` as the pair
`(best_score_threshold, best_final_score)`.  `empty_cache` and the
tqdm progress strings are external side effects, not modelled. -/
def Fitter.validation (ext : Externals) (f : Fitter) : Fitter × (ℚ × ℚ) :=
  let m := f.model.eval
  let preds := Fitter.validationAcc ext m.params [] f.val_loader
  ({ f with model := m, all_predictions := preds }, ext.evaluate preds)

/-- The part of one `fit` iteration that precedes validation
(fitter.py lines 56-73): warmup learning-rate adjustment, one training
pass, then the unconditional save to `last-checkpoint.bin`. -/
def Fitter.preValidation (ext : Externals) (epoch : Nat) (f : Fitter) : Fitter :=
  (Fitter.train_one_epoch ext (Fitter.warmupStep epoch f)).save FPath.lastCheckpoint

/-- Embeds the improvement branch of `fit` (fitter.py lines 80-86):
when the epoch validation score strictly exceeds the stored best,
update best score and threshold, switch the model to evaluation mode,
save the best checkpoint, the best model snapshot and the predictions
file; otherwise do nothing. -/
def Fitter.postVal (f : Fitter) (best_score_threshold best_final_score : ℚ) :
    Fitter :=
  if best_final_score > f.best_final_score then
    let f := { f with
        best_final_score := best_final_score
        best_score_threshold := best_score_threshold }
    let f := { f with model := f.model.eval }
    let f := f.save FPath.bestCheckpoint
    let f := f.save_model FPath.bestModel
    f.save_predictions FPath.allPredictionsCsv
  else f

/-- One iteration of the `fit` loop (fitter.py lines 56-96) for loop
variable `epoch`; returns the new state and whether the iteration
ended in the early-stopping `break`.  The `output.clear()` call every
`CLEAR_OUTPUT` epochs is an external display side effect, not
modelled; `self.epoch += 1` runs only when the iteration does not
break. -/
def Fitter.fitBody (ext : Externals) (epoch : Nat) (f : Fitter) :
    Fitter × Bool :=
  let p := Fitter.validation ext (Fitter.preValidation ext epoch f)
  let g := Fitter.postVal p.1 p.2.1 p.2.2
  let g := g.early_stop p.2.2
  if g.early_stop_epochs > g.early_stop_patience then (g, true)
  else ({ g with epoch := g.epoch + 1 }, false)

/-- The `for epoch in range(...)` loop of `fit`, with the number of
remaining iterations as fuel. -/
def Fitter.fitFrom (ext : Externals) : Nat → Nat → Fitter → Fitter
  | 0, _, f => f
  | fuel + 1, epoch, f =>
    let r := Fitter.fitBody ext epoch f
    if r.2 then r.1 else Fitter.fitFrom ext fuel (epoch + 1) r.1

/-- Embeds `fit()` (fitter.py lines 54-96): iterate the loop body for
`epoch in range(self.epoch, MAX_EPOCHS)`, stopping early on the
early-stopping break. -/
def Fitter.fit (ext : Externals) (f : Fitter) : Fitter :=
  Fitter.fitFrom ext (f.config.SOLVER.MAX_EPOCHS - f.epoch) f.epoch f

/-- The artifact most recently written to a path, if any: the result
of reading the path back after a run. -/
def readLast (ws : List FileWrite) (p : FPath) : Option Artifact :=
  (ws.reverse.find? (fun w => decide (w.path = p))).map (fun w => w.artifact)

/-- Number of writes performed to a given path. -/
def countWrites (ws : List FileWrite) (p : FPath) : Nat :=
  (ws.filter (fun w => decide (w.path = p))).length

/-- The epoch fields of the full checkpoints written to
`last-checkpoint.bin`, in write order. -/
def lastCkptEpochs (ws : List FileWrite) : List Nat :=
  ws.filterMap (fun w =>
    match w with
    | ⟨FPath.lastCheckpoint, Artifact.fullCkpt c⟩ => some c.epoch
    | _ => none)

/-- Whether a path is one of the three best-artifact targets written
by the improvement branch. -/
def isBestArtifactPath (p : FPath) : Bool :=
  decide (p = FPath.bestCheckpoint) || decide (p = FPath.bestModel) ||
    decide (p = FPath.allPredictionsCsv)

/-- The sublist of writes that target best-artifact paths. -/
def bestArtifactWrites (ws : List FileWrite) : List FileWrite :=
  ws.filter (fun w => isBestArtifactPath w.path)

/-- The list of epochs `e, e+1, ..., e+k-1`. -/
def epochRange (e : Nat) : Nat → List Nat
  | 0 => []
  | k + 1 => e :: epochRange (e + 1) k

/-- Numeric code of a device, used to record in a prediction payload
which device an image was on when inference saw it. -/
def devCode : Device → Nat
  | Device.cpu => 0
  | Device.cuda => 1

/-- Configuration for the early-stopping example: patience 1, no
warmup, plenty of epochs. -/
def cfgC1 : Config where
  VERBOSE := false
  SOLVER :=
    { MAX_EPOCHS := 10
      WARMUP_EPOCHS := 0
      BASE_LR := 1/100
      EARLY_STOP_PATIENCE := 1
      CLEAR_OUTPUT := 1 }

/-- Validation score produced after the n-th training pass in the
early-stopping example: the sequence 0.1, 0.3, 0.2, 0.25. -/
def scoreSeq : Nat → ℚ
  | 1 => 1/10
  | 2 => 3/10
  | 3 => 1/5
  | 4 => 1/4
  | _ => 0

/-- Collaborators realising the early-stopping example: each training
pass bumps the model parameter version, the forward pass exposes it,
inference records it, and evaluate maps it through `scoreSeq`. -/
def extC1 : Externals where
  trainEpoch := fun mp os ss _ => (mp + 1, os, ss)
  forward := fun params _ => params
  inferenceResults := fun _ outputs _ _ => [⟨0, outputs⟩]
  evaluate := fun ps =>
    match ps with
    | [] => (0, 0)
    | p :: _ => (1/2, scoreSeq p.data)

/-- A freshly constructed fitter for the early-stopping example. -/
def fitterC1 : Fitter :=
  Fitter.init ⟨Mode.train, 0⟩ Device.cuda cfgC1 0
    [⟨[⟨0, Device.cuda⟩], 0, [0]⟩] ⟨[0], 0⟩ 0

/-- A fitter used for the warmup learning-rate example:
`WARMUP_EPOCHS = 5`, `BASE_LR = 0.01`, one parameter group. -/
def fitterC3 : Fitter :=
  Fitter.init ⟨Mode.train, 0⟩ Device.cuda
    { VERBOSE := false
      SOLVER :=
        { MAX_EPOCHS := 10
          WARMUP_EPOCHS := 5
          BASE_LR := 1/100
          EARLY_STOP_PATIENCE := 1
          CLEAR_OUTPUT := 1 } }
    0 [] ⟨[0], 0⟩ 0

/-- A fitter constructed with the CPU device, holding one validation
batch whose single image also lives on the CPU. -/
def fitterC7 : Fitter :=
  Fitter.init ⟨Mode.train, 0⟩ Device.cpu cfgC1 0
    [⟨[⟨0, Device.cpu⟩], 0, [0]⟩] ⟨[0], 0⟩ 0

/-- Collaborators whose inference rows record, for each image it is
handed, the device code of the device the image was on. -/
def extC7 : Externals where
  trainEpoch := fun mp os ss _ => (mp, os, ss)
  forward := fun _ _ => 0
  inferenceResults := fun imgs _ _ _ =>
    imgs.map (fun i => ⟨i.id, devCode i.device⟩)
  evaluate := fun _ => (0, 0)

/-! ## Frame and unfolding lemmas for the individual methods -/

@[simp] theorem save_epoch (f : Fitter) (p : FPath) :
    (Fitter.save f p).epoch = f.epoch := rfl

@[simp] theorem save_best_final_score (f : Fitter) (p : FPath) :
    (Fitter.save f p).best_final_score = f.best_final_score := rfl

@[simp] theorem save_best_score_threshold (f : Fitter) (p : FPath) :
    (Fitter.save f p).best_score_threshold = f.best_score_threshold := rfl

@[simp] theorem save_early_stop_epochs (f : Fitter) (p : FPath) :
    (Fitter.save f p).early_stop_epochs = f.early_stop_epochs := rfl

@[simp] theorem save_early_stop_patience (f : Fitter) (p : FPath) :
    (Fitter.save f p).early_stop_patience = f.early_stop_patience := rfl

@[simp] theorem save_all_predictions (f : Fitter) (p : FPath) :
    (Fitter.save f p).all_predictions = f.all_predictions := rfl

@[simp] theorem save_config (f : Fitter) (p : FPath) :
    (Fitter.save f p).config = f.config := rfl

@[simp] theorem save_val_loader (f : Fitter) (p : FPath) :
    (Fitter.save f p).val_loader = f.val_loader := rfl

@[simp] theorem save_model_params (f : Fitter) (p : FPath) :
    (Fitter.save f p).model.params = f.model.params := rfl

@[simp] theorem save_writes (f : Fitter) (p : FPath) :
    (Fitter.save f p).writes = f.writes ++
      [⟨p, Artifact.fullCkpt
          ⟨f.model.params, f.optimizer.state, f.scheduler_state,
           f.best_score_threshold, f.best_final_score, f.epoch⟩⟩] := rfl

@[simp] theorem warmupStep_epoch (e : Nat) (f : Fitter) :
    (Fitter.warmupStep e f).epoch = f.epoch := by
  unfold Fitter.warmupStep; split <;> rfl

@[simp] theorem warmupStep_best_final_score (e : Nat) (f : Fitter) :
    (Fitter.warmupStep e f).best_final_score = f.best_final_score := by
  unfold Fitter.warmupStep; split <;> rfl

@[simp] theorem warmupStep_best_score_threshold (e : Nat) (f : Fitter) :
    (Fitter.warmupStep e f).best_score_threshold = f.best_score_threshold := by
  unfold Fitter.warmupStep; split <;> rfl

@[simp] theorem warmupStep_early_stop_epochs (e : Nat) (f : Fitter) :
    (Fitter.warmupStep e f).early_stop_epochs = f.early_stop_epochs := by
  unfold Fitter.warmupStep; split <;> rfl

@[simp] theorem warmupStep_early_stop_patience (e : Nat) (f : Fitter) :
    (Fitter.warmupStep e f).early_stop_patience = f.early_stop_patience := by
  unfold Fitter.warmupStep; split <;> rfl

@[simp] theorem warmupStep_all_predictions (e : Nat) (f : Fitter) :
    (Fitter.warmupStep e f).all_predictions = f.all_predictions := by
  unfold Fitter.warmupStep; split <;> rfl

@[simp] theorem warmupStep_config (e : Nat) (f : Fitter) :
    (Fitter.warmupStep e f).config = f.config := by
  unfold Fitter.warmupStep; split <;> rfl

@[simp] theorem warmupStep_writes (e : Nat) (f : Fitter) :
    (Fitter.warmupStep e f).writes = f.writes := by
  unfold Fitter.warmupStep; split <;> rfl

@[simp] theorem warmupStep_model (e : Nat) (f : Fitter) :
    (Fitter.warmupStep e f).model = f.model := by
  unfold Fitter.warmupStep; split <;> rfl

@[simp] theorem warmupStep_val_loader (e : Nat) (f : Fitter) :
    (Fitter.warmupStep e f).val_loader = f.val_loader := by
  unfold Fitter.warmupStep; split <;> rfl

@[simp] theorem train_one_epoch_epoch (ext : Externals) (f : Fitter) :
    (Fitter.train_one_epoch ext f).epoch = f.epoch := rfl

@[simp] theorem train_one_epoch_best_final_score (ext : Externals) (f : Fitter) :
    (Fitter.train_one_epoch ext f).best_final_score = f.best_final_score := rfl

@[simp] theorem train_one_epoch_best_score_threshold (ext : Externals)
    (f : Fitter) :
    (Fitter.train_one_epoch ext f).best_score_threshold
      = f.best_score_threshold := rfl

@[simp] theorem train_one_epoch_early_stop_epochs (ext : Externals)
    (f : Fitter) :
    (Fitter.train_one_epoch ext f).early_stop_epochs
      = f.early_stop_epochs := rfl

@[simp] theorem train_one_epoch_early_stop_patience (ext : Externals)
    (f : Fitter) :
    (Fitter.train_one_epoch ext f).early_stop_patience
      = f.early_stop_patience := rfl

@[simp] theorem train_one_epoch_all_predictions (ext : Externals)
    (f : Fitter) :
    (Fitter.train_one_epoch ext f).all_predictions = f.all_predictions := rfl

@[simp] theorem train_one_epoch_config (ext : Externals) (f : Fitter) :
    (Fitter.train_one_epoch ext f).config = f.config := rfl

@[simp] theorem train_one_epoch_writes (ext : Externals) (f : Fitter) :
    (Fitter.train_one_epoch ext f).writes = f.writes := rfl

@[simp] theorem train_one_epoch_val_loader (ext : Externals) (f : Fitter) :
    (Fitter.train_one_epoch ext f).val_loader = f.val_loader := rfl

@[simp] theorem validation_fst_epoch (ext : Externals) (f : Fitter) :
    (Fitter.validation ext f).1.epoch = f.epoch := rfl

@[simp] theorem validation_fst_best_final_score (ext : Externals) (f : Fitter) :
    (Fitter.validation ext f).1.best_final_score = f.best_final_score := rfl

@[simp] theorem validation_fst_best_score_threshold (ext : Externals)
    (f : Fitter) :
    (Fitter.validation ext f).1.best_score_threshold
      = f.best_score_threshold := rfl

@[simp] theorem validation_fst_early_stop_epochs (ext : Externals)
    (f : Fitter) :
    (Fitter.validation ext f).1.early_stop_epochs = f.early_stop_epochs := rfl

@[simp] theorem validation_fst_early_stop_patience (ext : Externals)
    (f : Fitter) :
    (Fitter.validation ext f).1.early_stop_patience
      = f.early_stop_patience := rfl

@[simp] theorem validation_fst_writes (ext : Externals) (f : Fitter) :
    (Fitter.validation ext f).1.writes = f.writes := rfl

@[simp] theorem validation_fst_config (ext : Externals) (f : Fitter) :
    (Fitter.validation ext f).1.config = f.config := rfl

@[simp] theorem validation_fst_model_params (ext : Externals) (f : Fitter) :
    (Fitter.validation ext f).1.model.params = f.model.params := rfl

@[simp] theorem validation_snd (ext : Externals) (f : Fitter) :
    (Fitter.validation ext f).2
      = ext.evaluate
          (Fitter.validationAcc ext f.model.params [] f.val_loader) := rfl

@[simp] theorem early_stop_counter (f : Fitter) (s : ℚ) :
    (Fitter.early_stop f s).early_stop_epochs
      = if s < f.best_final_score then f.early_stop_epochs + 1 else 0 := by
  unfold Fitter.early_stop; split <;> rfl

@[simp] theorem early_stop_epoch (f : Fitter) (s : ℚ) :
    (Fitter.early_stop f s).epoch = f.epoch := by
  unfold Fitter.early_stop; split <;> rfl

@[simp] theorem early_stop_best_final_score (f : Fitter) (s : ℚ) :
    (Fitter.early_stop f s).best_final_score = f.best_final_score := by
  unfold Fitter.early_stop; split <;> rfl

@[simp] theorem early_stop_best_score_threshold (f : Fitter) (s : ℚ) :
    (Fitter.early_stop f s).best_score_threshold
      = f.best_score_threshold := by
  unfold Fitter.early_stop; split <;> rfl

@[simp] theorem early_stop_patience_frame (f : Fitter) (s : ℚ) :
    (Fitter.early_stop f s).early_stop_patience = f.early_stop_patience := by
  unfold Fitter.early_stop; split <;> rfl

@[simp] theorem early_stop_writes (f : Fitter) (s : ℚ) :
    (Fitter.early_stop f s).writes = f.writes := by
  unfold Fitter.early_stop; split <;> rfl

/-- Full characterisation of the improvement branch: on strict
improvement it updates the best fields, evals the model and appends
exactly the three best-artifact writes; otherwise it is the
identity. -/
theorem postVal_eq (f : Fitter) (thr s : ℚ) :
    Fitter.postVal f thr s =
      if f.best_final_score < s then
        { f with
            best_final_score := s
            best_score_threshold := thr
            model := { f.model with mode := Mode.eval }
            writes := f.writes ++
              [⟨FPath.bestCheckpoint, Artifact.fullCkpt
                  ⟨f.model.params, f.optimizer.state, f.scheduler_state,
                   thr, s, f.epoch⟩⟩,
               ⟨FPath.bestModel, Artifact.modelCkpt
                  ⟨f.model.params, thr, s⟩⟩,
               ⟨FPath.allPredictionsCsv,
                  Artifact.predsCsv f.all_predictions⟩] }
      else f := by
  unfold Fitter.postVal Fitter.save Fitter.save_model Fitter.save_predictions
    Model.eval Model.state_dict
  split <;> simp

@[simp] theorem postVal_epoch (f : Fitter) (thr s : ℚ) :
    (Fitter.postVal f thr s).epoch = f.epoch := by
  rw [postVal_eq]; split <;> rfl

@[simp] theorem postVal_early_stop_epochs (f : Fitter) (thr s : ℚ) :
    (Fitter.postVal f thr s).early_stop_epochs = f.early_stop_epochs := by
  rw [postVal_eq]; split <;> rfl

@[simp] theorem postVal_early_stop_patience (f : Fitter) (thr s : ℚ) :
    (Fitter.postVal f thr s).early_stop_patience
      = f.early_stop_patience := by
  rw [postVal_eq]; split <;> rfl

@[simp] theorem postVal_best_final_score (f : Fitter) (thr s : ℚ) :
    (Fitter.postVal f thr s).best_final_score
      = if f.best_final_score < s then s else f.best_final_score := by
  rw [postVal_eq]; split <;> rfl

@[simp] theorem postVal_best_score_threshold (f : Fitter) (thr s : ℚ) :
    (Fitter.postVal f thr s).best_score_threshold
      = if f.best_final_score < s then thr else f.best_score_threshold := by
  rw [postVal_eq]; split <;> simp

@[simp] theorem postVal_writes (f : Fitter) (thr s : ℚ) :
    (Fitter.postVal f thr s).writes
      = f.writes ++
          (if f.best_final_score < s then
            [⟨FPath.bestCheckpoint, Artifact.fullCkpt
                ⟨f.model.params, f.optimizer.state, f.scheduler_state,
                 thr, s, f.epoch⟩⟩,
             ⟨FPath.bestModel, Artifact.modelCkpt ⟨f.model.params, thr, s⟩⟩,
             ⟨FPath.allPredictionsCsv, Artifact.predsCsv f.all_predictions⟩]
          else []) := by
  rw [postVal_eq]; split <;> simp

@[simp] theorem preValidation_epoch (ext : Externals) (e : Nat) (f : Fitter) :
    (Fitter.preValidation ext e f).epoch = f.epoch := by
  simp [Fitter.preValidation]

@[simp] theorem preValidation_best_final_score (ext : Externals) (e : Nat)
    (f : Fitter) :
    (Fitter.preValidation ext e f).best_final_score = f.best_final_score := by
  simp [Fitter.preValidation]

@[simp] theorem preValidation_best_score_threshold (ext : Externals) (e : Nat)
    (f : Fitter) :
    (Fitter.preValidation ext e f).best_score_threshold
      = f.best_score_threshold := by
  simp [Fitter.preValidation]

@[simp] theorem preValidation_early_stop_epochs (ext : Externals) (e : Nat)
    (f : Fitter) :
    (Fitter.preValidation ext e f).early_stop_epochs
      = f.early_stop_epochs := by
  simp [Fitter.preValidation]

@[simp] theorem preValidation_early_stop_patience (ext : Externals) (e : Nat)
    (f : Fitter) :
    (Fitter.preValidation ext e f).early_stop_patience
      = f.early_stop_patience := by
  simp [Fitter.preValidation]

@[simp] theorem preValidation_all_predictions (ext : Externals) (e : Nat)
    (f : Fitter) :
    (Fitter.preValidation ext e f).all_predictions = f.all_predictions := by
  simp [Fitter.preValidation]

@[simp] theorem preValidation_config (ext : Externals) (e : Nat) (f : Fitter) :
    (Fitter.preValidation ext e f).config = f.config := by
  simp [Fitter.preValidation]

/-- The writes performed before validation are exactly one full
checkpoint to the last-checkpoint path, carrying the current best
threshold, best score and epoch. -/
theorem preValidation_writes (ext : Externals) (e : Nat) (f : Fitter) :
    ∃ c : FullCheckpoint,
      (Fitter.preValidation ext e f).writes
        = f.writes ++ [⟨FPath.lastCheckpoint, Artifact.fullCkpt c⟩]
      ∧ c.best_score_threshold = f.best_score_threshold
      ∧ c.best_final_score = f.best_final_score
      ∧ c.epoch = f.epoch := by
  refine ⟨⟨(Fitter.train_one_epoch ext (Fitter.warmupStep e f)).model.params,
      (Fitter.train_one_epoch ext (Fitter.warmupStep e f)).optimizer.state,
      (Fitter.train_one_epoch ext (Fitter.warmupStep e f)).scheduler_state,
      f.best_score_threshold, f.best_final_score, f.epoch⟩, ?_, rfl, rfl, rfl⟩
  simp [Fitter.preValidation]

/-! ## Lemmas about one iteration of the fit loop -/

@[simp] theorem lastCkptEpochs_append (ws vs : List FileWrite) :
    lastCkptEpochs (ws ++ vs) = lastCkptEpochs ws ++ lastCkptEpochs vs := by
  simp [lastCkptEpochs, List.filterMap_append]

theorem fitBody_fst_patience (ext : Externals) (e : Nat) (f : Fitter) :
    (Fitter.fitBody ext e f).1.early_stop_patience
      = f.early_stop_patience := by
  simp only [Fitter.fitBody]
  split <;> simp

theorem fitBody_fst_epoch (ext : Externals) (e : Nat) (f : Fitter) :
    (Fitter.fitBody ext e f).1.epoch
      = if (Fitter.fitBody ext e f).2 then f.epoch else f.epoch + 1 := by
  simp only [Fitter.fitBody]
  split <;> simp

theorem fitBody_snd_iff (ext : Externals) (e : Nat) (f : Fitter) :
    (Fitter.fitBody ext e f).2 = true
      ↔ (Fitter.fitBody ext e f).1.early_stop_epochs
          > f.early_stop_patience := by
  simp only [Fitter.fitBody]
  split
  next h => simpa using h
  next h => simpa using h

theorem fitBody_best_mono (ext : Externals) (e : Nat) (f : Fitter) :
    f.best_final_score ≤ (Fitter.fitBody ext e f).1.best_final_score := by
  simp only [Fitter.fitBody]
  split
  all_goals
    simp only [early_stop_best_final_score, postVal_best_final_score,
      validation_fst_best_final_score, preValidation_best_final_score]
  all_goals split
  all_goals linarith

theorem fitBody_fst_writes (ext : Externals) (e : Nat) (f : Fitter) :
    ∃ (c : FullCheckpoint) (rest : List FileWrite),
      (Fitter.fitBody ext e f).1.writes
        = f.writes ++ ⟨FPath.lastCheckpoint, Artifact.fullCkpt c⟩ :: rest
      ∧ c.epoch = f.epoch
      ∧ c.best_final_score = f.best_final_score
      ∧ c.best_score_threshold = f.best_score_threshold := by
  obtain ⟨c, hw, hthr, hbest, hep⟩ := preValidation_writes ext e f
  refine ⟨c,
    (let v := Fitter.validation ext (Fitter.preValidation ext e f)
     if v.1.best_final_score < v.2.2 then
      [⟨FPath.bestCheckpoint, Artifact.fullCkpt
          ⟨v.1.model.params, v.1.optimizer.state, v.1.scheduler_state,
           v.2.1, v.2.2, v.1.epoch⟩⟩,
       ⟨FPath.bestModel, Artifact.modelCkpt ⟨v.1.model.params, v.2.1, v.2.2⟩⟩,
       ⟨FPath.allPredictionsCsv, Artifact.predsCsv v.1.all_predictions⟩]
     else []), ?_, hep, hbest, hthr⟩
  simp only [Fitter.fitBody]
  split <;>
    · simp only [early_stop_writes, postVal_writes, validation_fst_writes, hw]
      simp

theorem fitBody_lastCkptEpochs (ext : Externals) (e : Nat) (f : Fitter) :
    lastCkptEpochs (Fitter.fitBody ext e f).1.writes
      = lastCkptEpochs f.writes ++ [f.epoch] := by
  obtain ⟨c, hw, hthr, hbest, hep⟩ := preValidation_writes ext e f
  have hv : lastCkptEpochs
      (Fitter.validation ext (Fitter.preValidation ext e f)).1.writes
        = lastCkptEpochs f.writes ++ [f.epoch] := by
    rw [validation_fst_writes, hw]
    simp [lastCkptEpochs, hep]
  simp only [Fitter.fitBody]
  split <;>
    · simp only [early_stop_writes, postVal_writes, lastCkptEpochs_append, hv]
      split <;> simp [lastCkptEpochs]

/-! ## Lemmas about the whole loop -/

theorem fitFrom_zero (ext : Externals) (e : Nat) (f : Fitter) :
    Fitter.fitFrom ext 0 e f = f := rfl

theorem fitFrom_succ (ext : Externals) (n e : Nat) (f : Fitter) :
    Fitter.fitFrom ext (n + 1) e f
      = if (Fitter.fitBody ext e f).2 then (Fitter.fitBody ext e f).1
        else Fitter.fitFrom ext n (e + 1) (Fitter.fitBody ext e f).1 := rfl

theorem fitFrom_best_mono (ext : Externals) :
    ∀ (fuel e : Nat) (f : Fitter),
      f.best_final_score ≤ (Fitter.fitFrom ext fuel e f).best_final_score := by
  intro fuel
  induction fuel with
  | zero => intro e f; exact le_rfl
  | succ n ih =>
    intro e f
    rw [fitFrom_succ]
    split
    · exact fitBody_best_mono ext e f
    · exact le_trans (fitBody_best_mono ext e f)
        (ih (e + 1) (Fitter.fitBody ext e f).1)

theorem fitFrom_lastCkpt (ext : Externals) :
    ∀ (fuel e : Nat) (f : Fitter), f.epoch = e →
      ∃ k, lastCkptEpochs (Fitter.fitFrom ext fuel e f).writes
        = lastCkptEpochs f.writes ++ epochRange e k := by
  intro fuel
  induction fuel with
  | zero =>
    intro e f h
    exact ⟨0, by simp [fitFrom_zero, epochRange]⟩
  | succ n ih =>
    intro e f h
    rw [fitFrom_succ]
    split
    next hb =>
      refine ⟨1, ?_⟩
      rw [fitBody_lastCkptEpochs, h]
      rfl
    next hb =>
      have hep : (Fitter.fitBody ext e f).1.epoch = e + 1 := by
        rw [fitBody_fst_epoch, if_neg hb, h]
      obtain ⟨k, hk⟩ := ih (e + 1) (Fitter.fitBody ext e f).1 hep
      refine ⟨k + 1, ?_⟩
      rw [hk, fitBody_lastCkptEpochs, h]
      simp [epochRange, List.append_assoc]

@[simp] theorem bestArtifactWrites_append (ws vs : List FileWrite) :
    bestArtifactWrites (ws ++ vs)
      = bestArtifactWrites ws ++ bestArtifactWrites vs := by
  simp [bestArtifactWrites, List.filter_append]

theorem fitBody_noImprove (ext : Externals) (e : Nat) (f : Fitter)
    (hs : (Fitter.validation ext (Fitter.preValidation ext e f)).2.2
        ≤ f.best_final_score) :
    (Fitter.fitBody ext e f).1.best_final_score = f.best_final_score
    ∧ (Fitter.fitBody ext e f).1.best_score_threshold
        = f.best_score_threshold
    ∧ bestArtifactWrites (Fitter.fitBody ext e f).1.writes
        = bestArtifactWrites f.writes := by
  obtain ⟨c, hw, hthr, hbest, hep⟩ := preValidation_writes ext e f
  have hn : ¬ f.best_final_score
      < (Fitter.validation ext (Fitter.preValidation ext e f)).2.2 :=
    not_lt.mpr hs
  simp only [validation_snd] at hn
  refine ⟨?_, ?_, ?_⟩ <;>
    · simp only [Fitter.fitBody]
      split <;>
        · simp [hn, hw, bestArtifactWrites, isBestArtifactPath]
          try decide

theorem fitFrom_noImprove (ext : Externals)
    (hev : ∀ ps, (ext.evaluate ps).2 ≤ 0) :
    ∀ (fuel e : Nat) (f : Fitter), f.best_final_score = 0 →
      (Fitter.fitFrom ext fuel e f).best_final_score = 0
      ∧ (Fitter.fitFrom ext fuel e f).best_score_threshold
          = f.best_score_threshold
      ∧ bestArtifactWrites (Fitter.fitFrom ext fuel e f).writes
          = bestArtifactWrites f.writes := by
  intro fuel
  induction fuel with
  | zero => intro e f h0; exact ⟨h0, rfl, rfl⟩
  | succ n ih =>
    intro e f h0
    have hs : (Fitter.validation ext (Fitter.preValidation ext e f)).2.2
        ≤ f.best_final_score := by
      rw [h0, validation_snd]
      exact hev _
    obtain ⟨hb1, hb2, hb3⟩ := fitBody_noImprove ext e f hs
    rw [fitFrom_succ]
    split
    · exact ⟨by rw [hb1, h0], hb2, hb3⟩
    · obtain ⟨i1, i2, i3⟩ := ih (e + 1) (Fitter.fitBody ext e f).1
        (by rw [hb1, h0])
      exact ⟨i1, by rw [i2, hb2], by rw [i3, hb3]⟩

theorem validationAcc_append_acc (ext : Externals) (params : Nat) :
    ∀ (bs : List Batch) (acc : List Prediction),
      Fitter.validationAcc ext params acc bs
        = acc ++ Fitter.validationAcc ext params [] bs := by
  intro bs
  induction bs with
  | nil => intro acc; simp [Fitter.validationAcc]
  | cons b bs ih =>
    intro acc
    simp only [Fitter.validationAcc]
    rw [ih, ih (List.nil ++ _)]
    simp [List.append_assoc]

theorem validationAcc_join (ext : Externals) (params : Nat) :
    ∀ bs : List Batch,
      Fitter.validationAcc ext params [] bs
        = (bs.map (fun b =>
            ext.inferenceResults (b.images.map Image.cuda)
              (ext.forward params (b.images.map Image.cuda))
              b.targets b.image_ids)).flatten := by
  intro bs
  induction bs with
  | nil => rfl
  | cons b bs ih =>
    simp only [Fitter.validationAcc, List.map_cons, List.flatten]
    rw [validationAcc_append_acc, ih]
    simp

/-! ## The claims -/

set_option maxHeartbeats 1600000 in
/-- Claim C1: after each epoch validation, `early_stop(score)`
increments the counter by one exactly when the score is strictly below
the current `best_final_score` and resets it to zero otherwise; one
loop iteration ends in the early-stopping break exactly when the
updated counter strictly exceeds the configured patience, in which
case the epoch counter is not advanced; and on the validation score
sequence 0.1, 0.3, 0.2, 0.25 with patience 1 the loop stops after the
4th epoch (four last-checkpoint writes, epoch counter left at 3,
although 10 epochs were configured). -/
theorem fitter_C1 :
    (∀ (f : Fitter) (s : ℚ),
        (Fitter.early_stop f s).early_stop_epochs
          = if s < f.best_final_score then f.early_stop_epochs + 1 else 0)
    ∧ (∀ (ext : Externals) (e : Nat) (f : Fitter),
        ((Fitter.fitBody ext e f).2 = true
          ↔ (Fitter.fitBody ext e f).1.early_stop_epochs
              > f.early_stop_patience))
    ∧ (∀ (ext : Externals) (e : Nat) (f : Fitter),
        (Fitter.fitBody ext e f).1.epoch
          = if (Fitter.fitBody ext e f).2 then f.epoch else f.epoch + 1)
    ∧ (Fitter.fit extC1 fitterC1).epoch = 3
    ∧ countWrites (Fitter.fit extC1 fitterC1).writes FPath.lastCheckpoint = 4
    ∧ fitterC1.early_stop_patience = 1
    ∧ fitterC1.config.SOLVER.MAX_EPOCHS = 10 := by
  refine ⟨early_stop_counter, fitBody_snd_iff, fitBody_fst_epoch,
    ?_, ?_, rfl, rfl⟩
  · norm_num [Fitter.fit, Fitter.fitFrom, Fitter.fitBody, Fitter.validation,
      Fitter.preValidation, Fitter.postVal, Fitter.early_stop,
      Fitter.warmupStep, Fitter.train_one_epoch, Fitter.save,
      Fitter.save_model, Fitter.save_predictions, Fitter.validationAcc,
      Model.eval, Model.train, Model.state_dict, Optimizer.set_lrs,
      extC1, fitterC1, cfgC1, scoreSeq, Fitter.init]
  · norm_num [Fitter.fit, Fitter.fitFrom, Fitter.fitBody, Fitter.validation,
      Fitter.preValidation, Fitter.postVal, Fitter.early_stop,
      Fitter.warmupStep, Fitter.train_one_epoch, Fitter.save,
      Fitter.save_model, Fitter.save_predictions, Fitter.validationAcc,
      Model.eval, Model.train, Model.state_dict, Optimizer.set_lrs,
      extC1, fitterC1, cfgC1, scoreSeq, Fitter.init, countWrites]
    decide

/-- Claim C2: in each fit iteration the best artifacts (best
checkpoint, best model snapshot, predictions file) are written and the
best score/threshold updated exactly when the epoch validation score
strictly exceeds the previous best; on a non-improving epoch the
improvement branch is the identity.  The second conjunct records that
the best score the branch compares against is still the pre-epoch one:
neither the training pass, the last-checkpoint save nor validation
changes it. -/
theorem fitter_C2 :
    (∀ (f : Fitter) (thr s : ℚ),
        Fitter.postVal f thr s =
          if f.best_final_score < s then
            { f with
                best_final_score := s
                best_score_threshold := thr
                model := { f.model with mode := Mode.eval }
                writes := f.writes ++
                  [⟨FPath.bestCheckpoint, Artifact.fullCkpt
                      ⟨f.model.params, f.optimizer.state, f.scheduler_state,
                       thr, s, f.epoch⟩⟩,
                   ⟨FPath.bestModel, Artifact.modelCkpt
                      ⟨f.model.params, thr, s⟩⟩,
                   ⟨FPath.allPredictionsCsv,
                      Artifact.predsCsv f.all_predictions⟩] }
          else f)
    ∧ (∀ (ext : Externals) (e : Nat) (f : Fitter),
        (Fitter.validation ext (Fitter.preValidation ext e f)).1.best_final_score
          = f.best_final_score) :=
  ⟨postVal_eq, fun ext e f => by simp⟩

/-- Claim C3: for every epoch index strictly below the warmup length,
the fit loop sets every optimizer parameter-group learning rate to
`min(1, (epoch+1)/warmup) * base_lr` and disables schedule stepping;
at or past the warmup length it enables schedule stepping.  When the
base learning rate is nonnegative the warmup value equals
`((epoch+1)/warmup) * base_lr` clipped to at most `base_lr`.
With warmup 5 and base rate 0.01, epochs 0, 1 and 4 get rates 0.002,
0.004 and 0.01. -/
theorem fitter_C3 :
    (∀ (e : Nat) (f : Fitter), e < f.config.SOLVER.WARMUP_EPOCHS →
        (Fitter.warmupStep e f).optimizer.param_group_lrs
          = f.optimizer.param_group_lrs.map (fun _ =>
              min 1 (((e : ℚ) + 1) / (f.config.SOLVER.WARMUP_EPOCHS : ℚ))
                * f.config.SOLVER.BASE_LR)
        ∧ (Fitter.warmupStep e f).do_scheduler = false)
    ∧ (∀ (e : Nat) (f : Fitter), f.config.SOLVER.WARMUP_EPOCHS ≤ e →
        Fitter.warmupStep e f = { f with do_scheduler := true })
    ∧ (∀ (e : Nat) (f : Fitter), e < f.config.SOLVER.WARMUP_EPOCHS →
        0 ≤ f.config.SOLVER.BASE_LR →
        min 1 (((e : ℚ) + 1) / (f.config.SOLVER.WARMUP_EPOCHS : ℚ))
            * f.config.SOLVER.BASE_LR
          = min ((((e : ℚ) + 1) / (f.config.SOLVER.WARMUP_EPOCHS : ℚ))
              * f.config.SOLVER.BASE_LR) f.config.SOLVER.BASE_LR)
    ∧ (Fitter.warmupStep 0 fitterC3).optimizer.param_group_lrs = [1/500]
    ∧ (Fitter.warmupStep 1 fitterC3).optimizer.param_group_lrs = [1/250]
    ∧ (Fitter.warmupStep 4 fitterC3).optimizer.param_group_lrs = [1/100]
    ∧ (Fitter.warmupStep 5 fitterC3).do_scheduler = true := by
  refine ⟨fun e f h => ?_, fun e f h => ?_, fun e f h h0 => ?_,
    ?_, ?_, ?_, ?_⟩
  · unfold Fitter.warmupStep
    rw [if_pos h]
    exact ⟨rfl, rfl⟩
  · unfold Fitter.warmupStep
    rw [if_neg (not_lt.mpr h)]
  · have hWnat : 0 < f.config.SOLVER.WARMUP_EPOCHS :=
      lt_of_le_of_lt (Nat.zero_le e) h
    have hW : (0 : ℚ) < (f.config.SOLVER.WARMUP_EPOCHS : ℚ) := by
      exact_mod_cast hWnat
    have h1 : (e + 1 : ℕ) ≤ f.config.SOLVER.WARMUP_EPOCHS := h
    have hx1 : ((e : ℚ) + 1) / (f.config.SOLVER.WARMUP_EPOCHS : ℚ) ≤ 1 := by
      rw [div_le_one hW]
      exact_mod_cast h1
    rw [min_eq_right hx1, min_eq_left (mul_le_of_le_one_left h0 hx1)]
  · norm_num [Fitter.warmupStep, fitterC3, Fitter.init, Optimizer.set_lrs,
      min_def]
  · norm_num [Fitter.warmupStep, fitterC3, Fitter.init, Optimizer.set_lrs,
      min_def]
  · norm_num [Fitter.warmupStep, fitterC3, Fitter.init, Optimizer.set_lrs,
      min_def]
  · norm_num [Fitter.warmupStep, fitterC3, Fitter.init]

/-- Witness for claim C3 at epoch 0 of the concrete example fitter. -/
theorem fitter_C3_witness :
    (Fitter.warmupStep 0 fitterC3).optimizer.param_group_lrs
      = fitterC3.optimizer.param_group_lrs.map (fun _ =>
          min 1 ((((0 : Nat) : ℚ) + 1)
              / (fitterC3.config.SOLVER.WARMUP_EPOCHS : ℚ))
            * fitterC3.config.SOLVER.BASE_LR)
    ∧ (Fitter.warmupStep 0 fitterC3).do_scheduler = false :=
  fitter_C3.1 0 fitterC3 (by decide)

/-- Claim C4: saving to a path and then loading what was written to
that path restores `best_score_threshold` and `best_final_score` and
sets the epoch counter to the saved epoch plus one. -/
theorem fitter_C4 (f : Fitter) (path : FPath) :
    ∃ c : FullCheckpoint,
      readLast (Fitter.save f path).writes path
        = some (Artifact.fullCkpt c)
      ∧ (Fitter.load (Fitter.save f path) c).best_score_threshold
          = f.best_score_threshold
      ∧ (Fitter.load (Fitter.save f path) c).best_final_score
          = f.best_final_score
      ∧ (Fitter.load (Fitter.save f path) c).epoch = f.epoch + 1 := by
  refine ⟨⟨f.model.params, f.optimizer.state, f.scheduler_state,
      f.best_score_threshold, f.best_final_score, f.epoch⟩,
      ?_, rfl, rfl, rfl⟩
  simp [readLast]

/-- Claim C5: every fit iteration unconditionally persists a full
checkpoint to the last-checkpoint path right after the training pass,
before any validation-dependent write, and its epoch field equals the
fitter epoch counter of the iteration; consequently the sequence of
epoch fields in the last-checkpoint writes of a whole `fit` run is
exactly the contiguous range of processed epochs starting at the
initial epoch counter. -/
theorem fitter_C5 :
    (∀ (ext : Externals) (e : Nat) (f : Fitter),
        ∃ (c : FullCheckpoint) (rest : List FileWrite),
          (Fitter.fitBody ext e f).1.writes
            = f.writes ++ ⟨FPath.lastCheckpoint, Artifact.fullCkpt c⟩ :: rest
          ∧ c.epoch = f.epoch
          ∧ c.best_final_score = f.best_final_score
          ∧ c.best_score_threshold = f.best_score_threshold)
    ∧ (∀ (ext : Externals) (f : Fitter),
        ∃ k, lastCkptEpochs (Fitter.fit ext f).writes
          = lastCkptEpochs f.writes ++ epochRange f.epoch k) :=
  ⟨fitBody_fst_writes,
   fun ext f => fitFrom_lastCkpt ext
     (f.config.SOLVER.MAX_EPOCHS - f.epoch) f.epoch f rfl⟩

/-- Claim C6: `best_final_score` is monotonically non-decreasing, both
over a whole `fit` run and over each single iteration, and the
improvement branch changes it exactly on a strict improvement, at
which point the threshold is replaced together with it. -/
theorem fitter_C6 :
    (∀ (ext : Externals) (f : Fitter),
        f.best_final_score ≤ (Fitter.fit ext f).best_final_score)
    ∧ (∀ (ext : Externals) (e : Nat) (f : Fitter),
        f.best_final_score ≤ (Fitter.fitBody ext e f).1.best_final_score)
    ∧ (∀ (f : Fitter) (thr s : ℚ),
        (Fitter.postVal f thr s).best_final_score
          = if f.best_final_score < s then s else f.best_final_score)
    ∧ (∀ (f : Fitter) (thr s : ℚ),
        (Fitter.postVal f thr s).best_score_threshold
          = if f.best_final_score < s then thr else f.best_score_threshold) :=
  ⟨fun ext f => fitFrom_best_mono ext
      (f.config.SOLVER.MAX_EPOCHS - f.epoch) f.epoch f,
   fitBody_best_mono,
   postVal_best_final_score,
   postVal_best_score_threshold⟩

/-- Claim C7, refuting counterexample: validation does NOT move the
batch images to the device the Fitter was constructed with; it moves
them to the CUDA device unconditionally (`image.cuda()`, fitter.py
line 106).  With a fitter constructed with the CPU device and
collaborators that record the device code of every image handed to
inference, the run records device code 1 (CUDA), not the code 0 of
the configured device. -/
theorem fitter_C7_counterexample :
    fitterC7.device = Device.cpu
    ∧ (Fitter.validation extC7 fitterC7).1.all_predictions
        = [⟨0, devCode Device.cuda⟩]
    ∧ ¬ (Fitter.validation extC7 fitterC7).1.all_predictions
        = [⟨0, devCode fitterC7.device⟩] := by
  refine ⟨rfl, ?_, ?_⟩ <;> decide

/-- Claim C7 as amended: for every batch of the validation loader,
validation moves the batch images to the CUDA device (not to the
configured device) before the inference-only forward pass and appends
the resulting predictions to the accumulated list. -/
theorem fitter_C7_amended (ext : Externals) (f : Fitter) :
    (Fitter.validation ext f).1.all_predictions
      = (f.val_loader.map (fun b =>
          ext.inferenceResults (b.images.map Image.cuda)
            (ext.forward f.model.params (b.images.map Image.cuda))
            b.targets b.image_ids)).flatten
    ∧ ∀ (params : Nat) (acc : List Prediction) (bs : List Batch),
        Fitter.validationAcc ext params acc bs
          = acc ++ Fitter.validationAcc ext params [] bs := by
  constructor
  · exact validationAcc_join ext f.model.params f.val_loader
  · intro params acc bs
    exact validationAcc_append_acc ext params bs acc

/-- Claim C8: `save` and `save_model` both switch the model to
evaluation mode before serializing, whatever mode it was in, and leave
the epoch counter, best score, best threshold and early-stop counter
unchanged. -/
theorem fitter_C8 (f : Fitter) (p : FPath) :
    (Fitter.save f p).model.mode = Mode.eval
    ∧ (Fitter.save_model f p).model.mode = Mode.eval
    ∧ (Fitter.save f p).epoch = f.epoch
    ∧ (Fitter.save f p).best_final_score = f.best_final_score
    ∧ (Fitter.save f p).best_score_threshold = f.best_score_threshold
    ∧ (Fitter.save f p).early_stop_epochs = f.early_stop_epochs
    ∧ (Fitter.save_model f p).epoch = f.epoch
    ∧ (Fitter.save_model f p).best_final_score = f.best_final_score
    ∧ (Fitter.save_model f p).best_score_threshold = f.best_score_threshold
    ∧ (Fitter.save_model f p).early_stop_epochs = f.early_stop_epochs :=
  ⟨rfl, rfl, rfl, rfl, rfl, rfl, rfl, rfl, rfl, rfl⟩

/-- Claim C9: since the constructor initialises `best_final_score` to
0.0 and `best_score_threshold` to 0.5 and improvement requires a
strictly greater score, a run whose validation scores are all at most
0 never takes the improvement branch: the best score stays 0, the
threshold stays 0.5 and no best-artifact file is ever written. -/
theorem fitter_C9 (ext : Externals) (model : Model) (device : Device)
    (cfg : Config) (tl : Nat) (vl : List Batch) (opt : Optimizer) (ss : Nat)
    (hev : ∀ ps, (ext.evaluate ps).2 ≤ 0) :
    (Fitter.fit ext (Fitter.init model device cfg tl vl opt ss)).best_final_score
        = 0
    ∧ (Fitter.fit ext
        (Fitter.init model device cfg tl vl opt ss)).best_score_threshold
        = 1/2
    ∧ bestArtifactWrites
        (Fitter.fit ext (Fitter.init model device cfg tl vl opt ss)).writes
        = []
    ∧ (Fitter.init model device cfg tl vl opt ss).best_final_score = 0
    ∧ (Fitter.init model device cfg tl vl opt ss).best_score_threshold
        = 1/2 := by
  obtain ⟨h1, h2, h3⟩ := fitFrom_noImprove ext hev
    ((Fitter.init model device cfg tl vl opt ss).config.SOLVER.MAX_EPOCHS
      - (Fitter.init model device cfg tl vl opt ss).epoch)
    (Fitter.init model device cfg tl vl opt ss).epoch
    (Fitter.init model device cfg tl vl opt ss) rfl
  simp only [Fitter.fit]
  exact ⟨h1, by rw [h2]; rfl, by rw [h3]; rfl, rfl, rfl⟩

/-- Witness for claim C9: a CPU fitter with collaborators whose
evaluate always returns score 0. -/
theorem fitter_C9_witness :
    (Fitter.fit extC7 fitterC7).best_final_score = 0
    ∧ (Fitter.fit extC7 fitterC7).best_score_threshold = 1/2
    ∧ bestArtifactWrites (Fitter.fit extC7 fitterC7).writes = []
    ∧ fitterC7.best_final_score = 0
    ∧ fitterC7.best_score_threshold = 1/2 :=
  fitter_C9 extC7 ⟨Mode.train, 0⟩ Device.cpu cfgC1 0
    [⟨[⟨0, Device.cpu⟩], 0, [0]⟩] ⟨[0], 0⟩ 0 (fun _ => le_refl 0)

/-- Claim C10: `load` leaves the early-stop counter and the
schedule-stepping flag (and the configuration, device, predictions
and write log) untouched; it mutates only the model, optimizer and
scheduler state, the best threshold/score and the epoch counter; so a
fitter constructed and then loaded from a checkpoint still has the
constructor stall-counter value zero. -/
theorem fitter_C10 (f : Fitter) (c : FullCheckpoint) :
    (Fitter.load f c).early_stop_epochs = f.early_stop_epochs
    ∧ (Fitter.load f c).do_scheduler = f.do_scheduler
    ∧ (Fitter.load f c).early_stop_patience = f.early_stop_patience
    ∧ (Fitter.load f c).config = f.config
    ∧ (Fitter.load f c).device = f.device
    ∧ (Fitter.load f c).all_predictions = f.all_predictions
    ∧ (Fitter.load f c).writes = f.writes
    ∧ (Fitter.load f c).model.params = c.model_state_dict
    ∧ (Fitter.load f c).optimizer.state = c.optimizer_state_dict
    ∧ (Fitter.load f c).scheduler_state = c.scheduler_state_dict
    ∧ (Fitter.load f c).best_score_threshold = c.best_score_threshold
    ∧ (Fitter.load f c).best_final_score = c.best_final_score
    ∧ (Fitter.load f c).epoch = c.epoch + 1
    ∧ (∀ (model : Model) (device : Device) (cfg : Config) (tl : Nat)
        (vl : List Batch) (opt : Optimizer) (ss : Nat),
        (Fitter.load (Fitter.init model device cfg tl vl opt ss)
            c).early_stop_epochs = 0) :=
  ⟨rfl, rfl, rfl, rfl, rfl, rfl, rfl, rfl, rfl, rfl, rfl, rfl, rfl,
   fun _ _ _ _ _ _ _ => rfl⟩

end Wheat
